import Mathlib

/-!
Verification of the Seal GitHub Actions repository: a shallow embedding of
the client functions in the shared seal-api module (both the changeset-aware
revision and the original revision) together with the orchestration logic of
the two action entry points (upload-artifacts and codebase-snapshot).

External HTTP traffic is modelled by an oracle: every outbound request that
the orchestration makes is recorded in a trace of ApiCall values, and the
response each client function observes is supplied by an environment record.
Client functions that the TypeScript source lets throw are embedded as
functions into Except String; functions the source makes total (they catch
every failure) are embedded as total functions.
-/

namespace SealActions

/-- JSON-ish value used to model the dynamically typed version field of an
entity-details response: the field can be absent (modelled by Option none),
null, a number, or some other non-numeric value. -/
inductive JVal where
  | jnull
  | jnum (n : Int)
  | jstr (s : String)
  | jbool (b : Bool)
deriving DecidableEq

/-- SealFileReference from seal-api: id of an uploaded file entity plus an
optional version (none models null, meaning link to latest). -/
structure SealFileReference where
  id : String
  version : Option Int
deriving DecidableEq

/-- The template part of sourceInfo on a search result; its id is optional. -/
structure TemplateRef where
  id : Option String
deriving DecidableEq

/-- Optional sourceInfo wrapper of a search result entity. -/
structure SourceInfo where
  template : Option TemplateRef
deriving DecidableEq

/-- One REFERENCE-typed field of an entity: its value list. The constant
type tag REFERENCE of the TypeScript interface carries no information and is
omitted. -/
structure EntityField where
  value : List SealFileReference
deriving DecidableEq

/-- SealEntityLite from seal-api: the version field is modelled as an
optional dynamically typed value (absent, null, number, or other), the
sourceInfo chain keeps every optional layer, and fields is an optional map
from field name to field. -/
structure SealEntityLite where
  id : String
  title : String
  version : Option JVal
  sourceInfo : Option SourceInfo
  fields : Option (List (String × EntityField))
deriving DecidableEq

/-- Outcome of one HTTP exchange as seen by a client function: either the
transport layer failed (axios threw), or a response with a status code and a
parsed body arrived. -/
inductive HttpOutcome (α : Type) where
  | transportError (msg : String)
  | response (status : Nat) (body : α)
deriving DecidableEq

/-- One outbound request to the Seal platform, as recorded in the trace of a
run. -/
inductive ApiCall where
  | search (term : String)
  | getChangeSet (entityId : String)
  | uploadFile (path sealFilename typeTitle : String)
  | addToChangeSet (fileId csIndex : String)
  | getVersion (fileId : String)
  | archive (entityId : String)
  | patchField (entityId fieldName : String) (value : List SealFileReference)
deriving DecidableEq

/-- Per-reference archive status as produced inside archiveEntities. -/
inductive ArchiveStatus where
  | success
  | failed (err : String)
  | skipped
deriving DecidableEq

/-- Per-reference archive outcome record from archiveEntities. -/
structure ArchiveOutcome where
  id : String
  status : ArchiveStatus
deriving DecidableEq

/-- Final state of an action run: success means the process exits zero
(clean no-op or completed work); failed msg models core.setFailed. -/
inductive RunResult where
  | success
  | failed (msg : String)
deriving DecidableEq

deriving instance DecidableEq for Except

/-- PullRequestContext from github-context. -/
structure PullRequestContext where
  repoOwner : String
  repoName : String
  prNumber : Nat
  prTitle : String
  headRef : String
  baseRef : String
  commitSha : String
  workspace : String

/-- UploadArtifactsInputs from github-context. -/
structure UploadArtifactsInputs where
  sealApiToken : String
  sealApiBaseUrl : String
  sealTemplateId : String
  sealFileTypeTitle : String
  fieldName : String
  artifactPatterns : String

/-- The archive_type input of the snapshot action after validation. -/
inductive ArchiveKind where
  | zip
  | tar
deriving DecidableEq

/-- CodebaseSnapshotInputs from github-context. -/
structure CodebaseSnapshotInputs where
  sealApiToken : String
  sealApiBaseUrl : String
  sealTemplateId : String
  sealFileTypeTitle : String
  snapshotFieldName : String
  excludePatterns : String
  archiveType : ArchiveKind

/-- Environment for one upload-artifacts run: the glob result, the run
timestamp, and the response every outbound request would observe. -/
structure Env where
  foundFiles : List String
  timestamp : Nat
  searchOutcome : Except String (List SealEntityLite)
  changeSetOutcome : Except String String
  uploadOutcome : String → String → Except String String
  addOutcome : String → Except String Unit
  versionResp : String → HttpOutcome SealEntityLite
  archiveResp : String → HttpOutcome Unit
  patchOutcome : Except String Unit

/-- Environment for one codebase-snapshot run. -/
structure SnapshotEnv where
  archiveOutcome : Except String String
  searchOutcome : Except String (List SealEntityLite)
  uploadOutcome : String → String → Except String String
  versionResp : String → HttpOutcome SealEntityLite
  patchOutcome : Except String Unit

/-- Splits a character list at every character satisfying sep, keeping empty
pieces; cur accumulates the current piece in reverse. -/
def splitCharsAux (sep : Char → Bool) (cur : List Char) : List Char → List String
  | [] => [String.mk cur.reverse]
  | c :: rest =>
    if sep c then String.mk cur.reverse :: splitCharsAux sep [] rest
    else splitCharsAux sep (c :: cur) rest

/-- Node path.basename for the forward-slash paths the glob step returns:
the last nonempty path component. -/
def basename (p : String) : String :=
  ((splitCharsAux (fun c => c = '/') [] p.data).filter (fun c => c ≠ "")).getLastD p

/-- The pattern list of the upload-artifacts action: the artifact_patterns
input split on whitespace runs with empty pieces dropped. Splitting at every
single whitespace character and then dropping the empty pieces yields the
same list as the split on whitespace runs performed by the source. -/
def splitPatterns (s : String) : List String :=
  (splitCharsAux Char.isWhitespace [] s.data).filter (fun p => p.length ≠ 0)

/-- The title-substring search term built by the resolver. -/
def searchTerm (prNumber : Nat) : String :=
  s!"#{prNumber}"

/-- The optional chain entity sourceInfo template id of a search result. -/
def templateIdOf (e : SealEntityLite) : Option String :=
  (e.sourceInfo.bind SourceInfo.template).bind TemplateRef.id

/-- The client-side filter of the resolver: strict equality between the
optional template id chain of the entity and the given template id. -/
def matchesTemplate (templateId : String) (e : SealEntityLite) : Bool :=
  templateIdOf e == some templateId

/-- Message of the error thrown when no entity survives the filter. -/
def noMatchMsg (term templateId : String) : String :=
  s!"No Seal entity found matching title \"{term}\" and template ID \"{templateId}\"."

/-- Message of the error thrown when several entities survive the filter. -/
def multiMatchMsg (term templateId : String) : String :=
  s!"Found multiple entities matching title \"{term}\" and template ID \"{templateId}\". Cannot link artifact/snapshot."

/-- Message of the guard that rejects an empty template id before searching. -/
def requiredTidMsg : String :=
  "Seal Template ID is required for filtering search results."

/-- findSealEntity of the changeset-aware seal-api revision. The transport
and status handling up to a parsed 200 array is summarised by the
searchOutcome argument; the filter and the zero, one, many decision follow
the source. The source also guards the singleton element against undefined,
which cannot fire when exactly one element exists, so the singleton case
returns that element. -/
def findSealEntity (searchOutcome : Except String (List SealEntityLite))
    (prNumber : Nat) (templateId : String) : Except String SealEntityLite :=
  if templateId = "" then
    Except.error requiredTidMsg
  else
    match searchOutcome with
    | Except.error msg => Except.error msg
    | Except.ok searchResults =>
      match searchResults.filter (matchesTemplate templateId) with
      | [] => Except.error (noMatchMsg (searchTerm prNumber) templateId)
      | [e] => Except.ok e
      | _ :: _ :: _ => Except.error (multiMatchMsg (searchTerm prNumber) templateId)

/-- findSealEntityId of the original seal-api revision: same resolution, but
it returns only the id and additionally throws when the unique match has a
falsy id (the empty string). -/
def findSealEntityId (searchOutcome : Except String (List SealEntityLite))
    (prNumber : Nat) (templateId : String) : Except String String :=
  if templateId = "" then
    Except.error requiredTidMsg
  else
    match searchOutcome with
    | Except.error msg => Except.error msg
    | Except.ok searchResults =>
      match searchResults.filter (matchesTemplate templateId) with
      | [] => Except.error (noMatchMsg (searchTerm prNumber) templateId)
      | [e] =>
        if e.id = "" then
          let eid := e.id
          Except.error s!"Found unique Seal entity ID: {eid}"
        else
          Except.ok e.id
      | _ :: _ :: _ => Except.error (multiMatchMsg (searchTerm prNumber) templateId)

/-- getSealFileVersion: total, returns none on transport error, non-200
status, absent version, null version, or a non-numeric version value. -/
def getSealFileVersion (resp : HttpOutcome SealEntityLite) : Option Int :=
  match resp with
  | HttpOutcome.transportError _ => none
  | HttpOutcome.response status body =>
    if status = 200 then
      match body.version with
      | none => none
      | some JVal.jnull => none
      | some (JVal.jnum n) => some n
      | some (JVal.jstr _) => none
      | some (JVal.jbool _) => none
    else
      none

/-- The per-reference outcome computed inside the map of archiveEntities: a
reference with a falsy id is skipped, a 200 archive response is a success,
any other status or a transport error is a failure recorded with its
message. -/
def archiveOneOutcome (archiveResp : String → HttpOutcome Unit)
    (ref : SealFileReference) : ArchiveOutcome :=
  if ref.id = "" then
    { id := "invalid", status := ArchiveStatus.skipped }
  else
    match archiveResp ref.id with
    | HttpOutcome.transportError msg => { id := ref.id, status := ArchiveStatus.failed msg }
    | HttpOutcome.response st _ =>
      if st = 200 then
        { id := ref.id, status := ArchiveStatus.success }
      else
        { id := ref.id, status := ArchiveStatus.failed s!"Status {st}" }

/-- The archive requests archiveEntities sends: one POST per reference with
a non-empty id; with no reference list, or an empty one, none at all. -/
def archiveCalls (fileRefs : Option (List SealFileReference)) : List ApiCall :=
  match fileRefs with
  | none => []
  | some refs =>
    if refs.length = 0 then []
    else refs.filterMap (fun r => if r.id = "" then none else some (ApiCall.archive r.id))

/-- archiveEntities: total (the source settles every archive promise and
never rethrows). Returns the requests it sends together with the list of
per-reference outcomes its map produces. -/
def archiveEntities (archiveResp : String → HttpOutcome Unit)
    (fileRefs : Option (List SealFileReference)) : List ApiCall × List ArchiveOutcome :=
  match fileRefs with
  | none => ([], [])
  | some refs =>
    if refs.length = 0 then ([], [])
    else (archiveCalls (some refs), refs.map (archiveOneOutcome archiveResp))

/-- linkFilesToEntityField: with an empty reference list it returns without
sending anything; otherwise it sends one PATCH whose body value is exactly
the given reference list and propagates the patch outcome. -/
def linkFilesToEntityField (patchOutcome : Except String Unit)
    (entityId fieldName : String) (fileReferences : List SealFileReference) :
    List ApiCall × Except String Unit :=
  if fileReferences.length = 0 then
    ([], Except.ok ())
  else
    ([ApiCall.patchField entityId fieldName fileReferences], patchOutcome)

/-- The remote name the changeset-aware upload-artifacts run derives for one
file: original basename, PR number, and the single run-scoped timestamp. -/
def sealFilename (originalFilename : String) (prNumber timestamp : Nat) : String :=
  s!"artifact-{originalFilename}-PR{prNumber}-{timestamp}"

/-- One iteration of the per-file loop of the changeset-aware
upload-artifacts run: upload, then add to changeset, then best-effort
version fetch; the reference is collected only when upload and changeset-add
both succeed, and any failure is absorbed by the catch of the iteration. -/
def processFile (env : Env) (typeTitle : String) (prNumber timestamp : Nat)
    (csIndex : String) (filePath : String) : List ApiCall × Option SealFileReference :=
  let name := sealFilename (basename filePath) prNumber timestamp
  match env.uploadOutcome filePath name with
  | Except.error _ => ([ApiCall.uploadFile filePath name typeTitle], none)
  | Except.ok fileId =>
    match env.addOutcome fileId with
    | Except.error _ =>
      ([ApiCall.uploadFile filePath name typeTitle, ApiCall.addToChangeSet fileId csIndex], none)
    | Except.ok _ =>
      let v := getSealFileVersion (env.versionResp fileId)
      ([ApiCall.uploadFile filePath name typeTitle, ApiCall.addToChangeSet fileId csIndex,
        ApiCall.getVersion fileId],
       some { id := fileId, version := v })

/-- The whole per-file loop: trace, collected references in order, and the
count of files whose processing failed. -/
def processFiles (env : Env) (typeTitle : String) (prNumber timestamp : Nat)
    (csIndex : String) : List String → List ApiCall × List SealFileReference × Nat
  | [] => ([], [], 0)
  | f :: fs =>
    let head := processFile env typeTitle prNumber timestamp csIndex f
    let rest := processFiles env typeTitle prNumber timestamp csIndex fs
    (head.1 ++ rest.1,
     (match head.2 with
      | some r => r :: rest.2.1
      | none => rest.2.1),
     rest.2.2 + (match head.2 with
      | some _ => 0
      | none => 1))

/-- The optional chain entity fields of fieldName value read by the run
before archiving. -/
def lookupFieldValue (e : SealEntityLite) (fieldName : String) :
    Option (List SealFileReference) :=
  match e.fields with
  | none => none
  | some fs =>
    match fs.lookup fieldName with
    | none => none
    | some fld => some fld.value

/-- The search request list of a resolver invocation: the guard on an empty
template id throws before any request is sent. -/
def searchCallsFor (templateId : String) (prNumber : Nat) : List ApiCall :=
  if templateId = "" then [] else [ApiCall.search (searchTerm prNumber)]

/-- run of the changeset-aware upload-artifacts action: trace of outbound
requests and final result. -/
def runUploadArtifacts (env : Env) (inputs : UploadArtifactsInputs)
    (prContext : Option PullRequestContext) : List ApiCall × RunResult :=
  match prContext with
  | none => ([], RunResult.success)
  | some pr =>
    if (splitPatterns inputs.artifactPatterns).length = 0 then
      ([], RunResult.success)
    else if env.foundFiles.length = 0 then
      ([], RunResult.success)
    else
      let sCalls := searchCallsFor inputs.sealTemplateId pr.prNumber
      match findSealEntity env.searchOutcome pr.prNumber inputs.sealTemplateId with
      | Except.error msg => (sCalls, RunResult.failed msg)
      | Except.ok entity =>
        match env.changeSetOutcome with
        | Except.error msg =>
          (sCalls ++ [ApiCall.getChangeSet entity.id], RunResult.failed msg)
        | Except.ok csIndex =>
          let pf := processFiles env inputs.sealFileTypeTitle pr.prNumber env.timestamp
            csIndex env.foundFiles
          let base := sCalls ++ [ApiCall.getChangeSet entity.id] ++ pf.1
          if pf.2.1.length = 0 then
            if 0 < pf.2.2 then
              (base, RunResult.failed s!"{pf.2.2} artifact processing step(s) failed.")
            else
              (base, RunResult.success)
          else
            let link := linkFilesToEntityField env.patchOutcome entity.id inputs.fieldName pf.2.1
            (base ++ archiveCalls (lookupFieldValue entity inputs.fieldName) ++ link.1,
             match link.2 with
             | Except.ok _ => RunResult.success
             | Except.error msg => RunResult.failed msg)

/-- run of the codebase-snapshot action (original client revision): archive
creation is local work summarised by archiveOutcome, then resolve, upload,
best-effort version fetch, link. -/
def runCodebaseSnapshot (env : SnapshotEnv) (inputs : CodebaseSnapshotInputs)
    (prContext : Option PullRequestContext) : List ApiCall × RunResult :=
  match prContext with
  | none => ([], RunResult.success)
  | some pr =>
    match env.archiveOutcome with
    | Except.error msg => ([], RunResult.failed msg)
    | Except.ok archivePath =>
      let sCalls := searchCallsFor inputs.sealTemplateId pr.prNumber
      match findSealEntityId env.searchOutcome pr.prNumber inputs.sealTemplateId with
      | Except.error msg => (sCalls, RunResult.failed msg)
      | Except.ok entityId =>
        let name := basename archivePath
        match env.uploadOutcome archivePath name with
        | Except.error msg =>
          (sCalls ++ [ApiCall.uploadFile archivePath name inputs.sealFileTypeTitle],
           RunResult.failed msg)
        | Except.ok fileId =>
          let v := getSealFileVersion (env.versionResp fileId)
          let link := linkFilesToEntityField env.patchOutcome entityId
            inputs.snapshotFieldName [{ id := fileId, version := v }]
          (sCalls ++ [ApiCall.uploadFile archivePath name inputs.sealFileTypeTitle,
            ApiCall.getVersion fileId] ++ link.1,
           match link.2 with
           | Except.ok _ => RunResult.success
           | Except.error msg => RunResult.failed msg)

/-- Character-list containment of pat somewhere inside s. -/
def charsContain (pat : List Char) : List Char → Bool
  | [] => pat.isEmpty
  | c :: t => pat.isPrefixOf (c :: t) || charsContain pat t

/-- Substring test: containsSub s pat is true when pat occurs inside s. -/
def containsSub (s pat : String) : Bool :=
  charsContain pat.data s.data

/-- Concrete entity fixture matching template t, with prior field value on
field F, used by the closed witness theorems. -/
def entW : SealEntityLite :=
  { id := "e1", title := "Title #5", version := none,
    sourceInfo := some { template := some { id := some "t" } },
    fields := some [("F", { value := [{ id := "a1", version := some 1 }] })] }

/-- Concrete matching entity fixture whose id does not occur in the
ambiguous-match message. -/
def entZ1 : SealEntityLite :=
  { id := "zzz1", title := "Change #7", version := none,
    sourceInfo := some { template := some { id := some "tmpl" } }, fields := none }

/-- Second concrete matching entity fixture for the ambiguous case. -/
def entZ2 : SealEntityLite :=
  { id := "zzz2", title := "Other #7", version := none,
    sourceInfo := some { template := some { id := some "tmpl" } }, fields := none }

/-- Entity-details body fixture with no version field. -/
def entEmpty : SealEntityLite :=
  { id := "", title := "", version := none, sourceInfo := none, fields := none }

/-- Entity-details body fixture with a null version field. -/
def entNullV : SealEntityLite :=
  { id := "", title := "", version := some JVal.jnull, sourceInfo := none, fields := none }

/-- Entity-details body fixture with a non-numeric version field. -/
def entStrV : SealEntityLite :=
  { id := "", title := "", version := some (JVal.jstr "v3"), sourceInfo := none, fields := none }

/-- Prior reference fixture. -/
def refA : SealFileReference := { id := "a1", version := some 1 }

/-- First newly collected reference fixture. -/
def refB : SealFileReference := { id := "b1", version := none }

/-- Second newly collected reference fixture. -/
def refC : SealFileReference := { id := "c1", version := none }

/-- Reference fixture with a falsy id, skipped by archiveEntities. -/
def refBad : SealFileReference := { id := "", version := none }

/-- Pull-request context fixture for PR 5. -/
def prW : PullRequestContext :=
  { repoOwner := "o", repoName := "r", prNumber := 5, prTitle := "Title #5",
    headRef := "h", baseRef := "m", commitSha := "s", workspace := "/w" }

/-- Inputs fixture for the upload-artifacts action. -/
def inputsW : UploadArtifactsInputs :=
  { sealApiToken := "k", sealApiBaseUrl := "u/", sealTemplateId := "t",
    sealFileTypeTitle := "ft", fieldName := "F", artifactPatterns := "*" }

/-- Environment fixture: two files that both upload successfully, with the
version fetch failing at the transport layer. -/
def envW2 : Env :=
  { foundFiles := ["f1", "f2"], timestamp := 9,
    searchOutcome := Except.ok [entW],
    changeSetOutcome := Except.ok "cs1",
    uploadOutcome := fun p _ => if p = "f1" then Except.ok "b1" else Except.ok "c1",
    addOutcome := fun _ => Except.ok (),
    versionResp := fun _ => HttpOutcome.transportError "down",
    archiveResp := fun _ => HttpOutcome.response 200 (),
    patchOutcome := Except.ok () }

/-- The batch trace produced by envW2. -/
def tW : List ApiCall :=
  [ApiCall.uploadFile "f1" "artifact-f1-PR5-9" "ft", ApiCall.addToChangeSet "b1" "cs1",
   ApiCall.getVersion "b1",
   ApiCall.uploadFile "f2" "artifact-f2-PR5-9" "ft", ApiCall.addToChangeSet "c1" "cs1",
   ApiCall.getVersion "c1"]

/-- Environment fixture: three files, the upload of the second fails. -/
def envW3 : Env :=
  { foundFiles := ["f1", "f2", "f3"], timestamp := 9,
    searchOutcome := Except.ok [entW],
    changeSetOutcome := Except.ok "cs1",
    uploadOutcome := fun p _ => if p = "f2" then Except.error "boom" else Except.ok (String.append p "x"),
    addOutcome := fun _ => Except.ok (),
    versionResp := fun _ => HttpOutcome.transportError "down",
    archiveResp := fun _ => HttpOutcome.response 200 (),
    patchOutcome := Except.ok () }

/-- Environment fixture: one file whose upload fails. -/
def envW4 : Env :=
  { foundFiles := ["f1"], timestamp := 9,
    searchOutcome := Except.ok [entW],
    changeSetOutcome := Except.ok "cs1",
    uploadOutcome := fun _ _ => Except.error "boom",
    addOutcome := fun _ => Except.ok (),
    versionResp := fun _ => HttpOutcome.transportError "down",
    archiveResp := fun _ => HttpOutcome.response 200 (),
    patchOutcome := Except.ok () }

/-- Environment fixture: the glob step found no files. -/
def envW4e : Env :=
  { envW4 with foundFiles := [] }

/-- Environment fixture: one file, uploaded and added to the changeset, with
the version fetch answered by a non-200 status. -/
def envW6 : Env :=
  { foundFiles := ["f"], timestamp := 9,
    searchOutcome := Except.ok [],
    changeSetOutcome := Except.ok "cs",
    uploadOutcome := fun _ _ => Except.ok "fid",
    addOutcome := fun _ => Except.ok (),
    versionResp := fun _ => HttpOutcome.response 500 entEmpty,
    archiveResp := fun _ => HttpOutcome.response 200 (),
    patchOutcome := Except.ok () }

/-- Archive oracle fixture: archiving a1 succeeds, anything else gets 404. -/
def respW : String → HttpOutcome Unit :=
  fun s => if s = "a1" then HttpOutcome.response 200 () else HttpOutcome.response 404 ()

theorem findSealEntity_ok_tid_ne {s : Except String (List SealEntityLite)} {pr : Nat}
    {tid : String} {e : SealEntityLite}
    (h : findSealEntity s pr tid = Except.ok e) : tid ≠ "" := by
  intro hte
  simp only [findSealEntity, if_pos hte] at h
  cases h

theorem uploadFile_mem_processFile (env : Env) (ttl : String) (pr ts : Nat)
    (cs f : String) :
    ApiCall.uploadFile f (sealFilename (basename f) pr ts) ttl
      ∈ (processFile env ttl pr ts cs f).1 := by
  simp only [processFile]
  cases h1 : env.uploadOutcome f (sealFilename (basename f) pr ts) with
  | error e => simp
  | ok fid =>
    cases h2 : env.addOutcome fid with
    | error e => simp [h2]
    | ok u => simp [h2]

theorem processFile_archive_frame (env : Env) (g : String → HttpOutcome Unit)
    (ttl : String) (pr ts : Nat) (cs f : String) :
    processFile { env with archiveResp := g } ttl pr ts cs f
      = processFile env ttl pr ts cs f := rfl

theorem processFiles_archive_frame (env : Env) (g : String → HttpOutcome Unit)
    (ttl : String) (pr ts : Nat) (cs : String) (files : List String) :
    processFiles { env with archiveResp := g } ttl pr ts cs files
      = processFiles env ttl pr ts cs files := by
  induction files with
  | nil => rfl
  | cons f fs ih =>
    simp only [processFiles, processFile_archive_frame, ih]

theorem runUpload_noFiles (env : Env) (inputs : UploadArtifactsInputs)
    (pr : PullRequestContext) (h : env.foundFiles = []) :
    runUploadArtifacts env inputs (some pr) = ([], RunResult.success) := by
  simp only [runUploadArtifacts, h]
  split
  · rfl
  · simp

theorem runUpload_link_shape (env : Env) (inputs : UploadArtifactsInputs)
    (pr : PullRequestContext) (e : SealEntityLite) (cs : String)
    (t : List ApiCall) (refs : List SealFileReference) (fails : Nat)
    (h1 : splitPatterns inputs.artifactPatterns ≠ [])
    (h2 : env.foundFiles ≠ [])
    (h3 : findSealEntity env.searchOutcome pr.prNumber inputs.sealTemplateId = Except.ok e)
    (h4 : env.changeSetOutcome = Except.ok cs)
    (h5 : processFiles env inputs.sealFileTypeTitle pr.prNumber env.timestamp cs env.foundFiles
      = (t, refs, fails))
    (h6 : refs ≠ []) :
    runUploadArtifacts env inputs (some pr) =
      ([ApiCall.search (searchTerm pr.prNumber), ApiCall.getChangeSet e.id] ++ t
        ++ archiveCalls (lookupFieldValue e inputs.fieldName)
        ++ [ApiCall.patchField e.id inputs.fieldName refs],
       match env.patchOutcome with
       | Except.ok _ => RunResult.success
       | Except.error msg => RunResult.failed msg) := by
  have htid : inputs.sealTemplateId ≠ "" := findSealEntity_ok_tid_ne h3
  have hlen1 : ¬((splitPatterns inputs.artifactPatterns).length = 0) := by
    simpa [List.length_eq_zero] using h1
  have hlen2 : ¬(env.foundFiles.length = 0) := by
    simpa [List.length_eq_zero] using h2
  have hrlen : ¬(refs.length = 0) := by simpa [List.length_eq_zero] using h6
  simp only [runUploadArtifacts, if_neg hlen1, if_neg hlen2, h3, h4, h5,
    searchCallsFor, if_neg htid, linkFilesToEntityField, if_neg hrlen]
  simp [List.append_assoc]

theorem runUpload_fail_shape (env : Env) (inputs : UploadArtifactsInputs)
    (pr : PullRequestContext) (e : SealEntityLite) (cs : String)
    (t : List ApiCall) (fails : Nat)
    (h1 : splitPatterns inputs.artifactPatterns ≠ [])
    (h2 : env.foundFiles ≠ [])
    (h3 : findSealEntity env.searchOutcome pr.prNumber inputs.sealTemplateId = Except.ok e)
    (h4 : env.changeSetOutcome = Except.ok cs)
    (h5 : processFiles env inputs.sealFileTypeTitle pr.prNumber env.timestamp cs env.foundFiles
      = (t, [], fails))
    (h6 : 0 < fails) :
    (runUploadArtifacts env inputs (some pr)).2
      = RunResult.failed s!"{fails} artifact processing step(s) failed." := by
  have htid : inputs.sealTemplateId ≠ "" := findSealEntity_ok_tid_ne h3
  have hlen1 : ¬((splitPatterns inputs.artifactPatterns).length = 0) := by
    simpa [List.length_eq_zero] using h1
  have hlen2 : ¬(env.foundFiles.length = 0) := by
    simpa [List.length_eq_zero] using h2
  simp only [runUploadArtifacts, if_neg hlen1, if_neg hlen2, h3, h4, h5,
    searchCallsFor, if_neg htid]
  simp [h6]

/-- Claim C1: for every list of search results, the resolver findSealEntity
returns an entity iff exactly one element has the given template id; zero
matches raise the not-found error, two or more raise the ambiguous-match
error, and a returned entity is a matching element of the results. The
template id is nonempty at every call site because the action inputs declare
it required. -/
theorem claim1_resolver_exactly_one_match (results : List SealEntityLite) (pr : Nat)
    (tid : String) (h : tid ≠ "") :
    ((∃ e, findSealEntity (Except.ok results) pr tid = Except.ok e) ↔
      (results.filter (matchesTemplate tid)).length = 1)
    ∧ ((results.filter (matchesTemplate tid)).length = 0 →
      findSealEntity (Except.ok results) pr tid = Except.error (noMatchMsg (searchTerm pr) tid))
    ∧ (2 ≤ (results.filter (matchesTemplate tid)).length →
      findSealEntity (Except.ok results) pr tid = Except.error (multiMatchMsg (searchTerm pr) tid))
    ∧ (∀ e, findSealEntity (Except.ok results) pr tid = Except.ok e →
      e ∈ results ∧ matchesTemplate tid e = true) := by
  rcases hm : results.filter (matchesTemplate tid) with _ | ⟨a, _ | ⟨b, t⟩⟩
  · refine ⟨?_, ?_, ?_, ?_⟩
    · simp [findSealEntity, if_neg h, hm]
    · intro _; simp [findSealEntity, if_neg h, hm]
    · intro h2; simp at h2
    · intro e he; simp [findSealEntity, if_neg h, hm] at he
  · have hmem : a ∈ results ∧ matchesTemplate tid a = true := by
      have : a ∈ results.filter (matchesTemplate tid) := by
        rw [hm]; exact List.mem_singleton_self a
      exact List.mem_filter.mp this
    have ha : findSealEntity (Except.ok results) pr tid = Except.ok a := by
      simp [findSealEntity, if_neg h, hm]
    refine ⟨?_, ?_, ?_, ?_⟩
    · simp [ha]
    · intro h2; simp at h2
    · intro h2; simp at h2
    · intro e he
      rw [ha] at he
      injection he with he
      exact he ▸ hmem
  · have herr : findSealEntity (Except.ok results) pr tid
        = Except.error (multiMatchMsg (searchTerm pr) tid) := by
      simp [findSealEntity, if_neg h, hm]
    refine ⟨?_, ?_, ?_, ?_⟩
    · simp [herr]
    · intro h2; simp at h2
    · intro _; exact herr
    · intro e he; rw [herr] at he; cases he

/-- Witness for claim C1: a single matching search result is resolved. -/
theorem claim1_witness :
    ∃ e, findSealEntity (Except.ok [entW]) 5 "t" = Except.ok e :=
  (claim1_resolver_exactly_one_match [entW] 5 "t" (by decide)).1.mpr (by decide)

/-- Claim C2: a linking run with prior field value [A] and collected
references [B, C] sends a PATCH whose body is exactly the list [B, C] (the
prior value is not merged in), and the archive request for A is sent before
the PATCH. -/
theorem claim2_patch_replaces_and_archives_first
    (env : Env) (inputs : UploadArtifactsInputs) (pr : PullRequestContext)
    (e : SealEntityLite) (A B C : SealFileReference) (cs : String)
    (t : List ApiCall) (fails : Nat)
    (h1 : splitPatterns inputs.artifactPatterns ≠ [])
    (h2 : env.foundFiles ≠ [])
    (h3 : findSealEntity env.searchOutcome pr.prNumber inputs.sealTemplateId = Except.ok e)
    (h4 : env.changeSetOutcome = Except.ok cs)
    (h5 : processFiles env inputs.sealFileTypeTitle pr.prNumber env.timestamp cs env.foundFiles
      = (t, [B, C], fails))
    (h6 : lookupFieldValue e inputs.fieldName = some [A])
    (h7 : A.id ≠ "") :
    (runUploadArtifacts env inputs (some pr)).1 =
      [ApiCall.search (searchTerm pr.prNumber), ApiCall.getChangeSet e.id] ++ t
        ++ [ApiCall.archive A.id, ApiCall.patchField e.id inputs.fieldName [B, C]] := by
  have h := runUpload_link_shape env inputs pr e cs t [B, C] fails h1 h2 h3 h4 h5 (by simp)
  rw [h]
  simp [archiveCalls, h6, h7]

/-- Witness for claim C2 at a concrete two-file run with one prior
reference. -/
theorem claim2_witness :
    (runUploadArtifacts envW2 inputsW (some prW)).1 =
      [ApiCall.search (searchTerm prW.prNumber), ApiCall.getChangeSet entW.id] ++ tW
        ++ [ApiCall.archive refA.id, ApiCall.patchField entW.id inputsW.fieldName [refB, refC]] :=
  claim2_patch_replaces_and_archives_first envW2 inputsW prW entW refA refB refC "cs1" tW 0
    (by decide) (by decide) (by decide) rfl (by decide) (by decide) (by decide)

/-- Claim C3: over every file batch the collected references and the counted
failures partition the input files, and every file of the batch gets its
upload attempt regardless of what happens to the other files: no per-file
error escapes the loop. -/
theorem claim3_batch_partition (env : Env) (ttl : String) (pr ts : Nat) (cs : String)
    (files : List String) :
    ((processFiles env ttl pr ts cs files).2.1.length
        + (processFiles env ttl pr ts cs files).2.2 = files.length)
    ∧ (∀ f, f ∈ files →
        ApiCall.uploadFile f (sealFilename (basename f) pr ts) ttl
          ∈ (processFiles env ttl pr ts cs files).1) := by
  induction files with
  | nil => exact ⟨rfl, by intro f hf; cases hf⟩
  | cons f fs ih =>
    constructor
    · have hlen := ih.1
      simp only [processFiles]
      cases hpf : (processFile env ttl pr ts cs f).2 with
      | some r => simp; omega
      | none => simp; omega
    · intro g hg
      simp only [processFiles, List.mem_append]
      rcases List.mem_cons.mp hg with rfl | hg2
      · exact Or.inl (uploadFile_mem_processFile env ttl pr ts cs g)
      · exact Or.inr (ih.2 g hg2)

/-- Witness for claim C3: three files, the second upload fails (scenario 3),
and the failing file still has its upload attempt in the trace. -/
theorem claim3_witness :
    ((processFiles envW3 "ft" 5 9 "cs1" ["f1", "f2", "f3"]).2.1.length
        + (processFiles envW3 "ft" 5 9 "cs1" ["f1", "f2", "f3"]).2.2 = 3)
    ∧ ApiCall.uploadFile "f2" (sealFilename (basename "f2") 5 9) "ft"
        ∈ (processFiles envW3 "ft" 5 9 "cs1" ["f1", "f2", "f3"]).1 :=
  ⟨(claim3_batch_partition envW3 "ft" 5 9 "cs1" ["f1", "f2", "f3"]).1,
   (claim3_batch_partition envW3 "ft" 5 9 "cs1" ["f1", "f2", "f3"]).2 "f2" (by decide)⟩

/-- Claim C4: a run whose batch collects no reference but counts at least
one failure fails with the aggregate message, and a run whose glob step
finds no files returns successfully with an empty trace (no platform
contact). -/
theorem claim4_zero_refs_fail_and_glob_noop :
    (∀ (env : Env) (inputs : UploadArtifactsInputs) (pr : PullRequestContext)
        (e : SealEntityLite) (cs : String) (t : List ApiCall) (fails : Nat),
      splitPatterns inputs.artifactPatterns ≠ [] →
      env.foundFiles ≠ [] →
      findSealEntity env.searchOutcome pr.prNumber inputs.sealTemplateId = Except.ok e →
      env.changeSetOutcome = Except.ok cs →
      processFiles env inputs.sealFileTypeTitle pr.prNumber env.timestamp cs env.foundFiles
        = (t, [], fails) →
      0 < fails →
      (runUploadArtifacts env inputs (some pr)).2
        = RunResult.failed s!"{fails} artifact processing step(s) failed.")
    ∧ (∀ (env : Env) (inputs : UploadArtifactsInputs) (pr : PullRequestContext),
      env.foundFiles = [] →
      runUploadArtifacts env inputs (some pr) = ([], RunResult.success)) :=
  ⟨fun env inputs pr e cs t fails h1 h2 h3 h4 h5 h6 =>
     runUpload_fail_shape env inputs pr e cs t fails h1 h2 h3 h4 h5 h6,
   fun env inputs pr h => runUpload_noFiles env inputs pr h⟩

/-- Witness for claim C4: a one-file run whose only upload fails is a
failure, and a run with an empty glob result is a silent no-op. -/
theorem claim4_witness :
    (runUploadArtifacts envW4 inputsW (some prW)).2
      = RunResult.failed "1 artifact processing step(s) failed."
    ∧ runUploadArtifacts envW4e inputsW (some prW) = ([], RunResult.success) :=
  ⟨claim4_zero_refs_fail_and_glob_noop.1 envW4 inputsW prW entW "cs1"
     [ApiCall.uploadFile "f1" "artifact-f1-PR5-9" "ft"] 1
     (by decide) (by decide) (by decide) rfl (by decide) (by decide),
   claim4_zero_refs_fail_and_glob_noop.2 envW4e inputsW prW rfl⟩

/-- Claim C5 evaluation: two distinct files processed in the same run (same
run-scoped timestamp) receive the same derived remote filename whenever
their basenames agree, because the name depends only on the basename, the
PR number and the shared timestamp. -/
theorem claim5_sealFilename_collision :
    ("a/README.md" : String) ≠ "b/README.md"
    ∧ sealFilename (basename "a/README.md") 5 1111
      = sealFilename (basename "b/README.md") 5 1111 := by decide

/-- Claim C6: getSealFileVersion never raises and returns none on a
transport error, a non-200 status, an absent version, a null version, or a
non-numeric version; and in the batch loop a file whose upload and
changeset-add succeeded is still collected with version none when the
version fetch fails. -/
theorem claim6_version_fetch_nonfatal :
    (∀ msg, getSealFileVersion (HttpOutcome.transportError msg) = none)
    ∧ (∀ status body, status ≠ 200 →
        getSealFileVersion (HttpOutcome.response status body) = none)
    ∧ (∀ status body, body.version = none →
        getSealFileVersion (HttpOutcome.response status body) = none)
    ∧ (∀ status body, body.version = some JVal.jnull →
        getSealFileVersion (HttpOutcome.response status body) = none)
    ∧ (∀ status body s, body.version = some (JVal.jstr s) →
        getSealFileVersion (HttpOutcome.response status body) = none)
    ∧ (∀ (env : Env) (ttl : String) (pr ts : Nat) (cs f fid : String),
        env.uploadOutcome f (sealFilename (basename f) pr ts) = Except.ok fid →
        env.addOutcome fid = Except.ok () →
        getSealFileVersion (env.versionResp fid) = none →
        (processFile env ttl pr ts cs f).2 = some { id := fid, version := none }) := by
  refine ⟨fun msg => rfl, ?_, ?_, ?_, ?_, ?_⟩
  · intro status body hs
    simp [getSealFileVersion, hs]
  · intro status body hv
    simp [getSealFileVersion, hv]
  · intro status body hv
    simp [getSealFileVersion, hv]
  · intro status body s hv
    simp [getSealFileVersion, hv]
  · intro env ttl pr ts cs f fid h1 h2 h3
    simp only [processFile, h1, h2, h3]

/-- Witness for claim C6 at concrete responses and a concrete run in which
the version fetch is answered with status 500. -/
theorem claim6_witness :
    getSealFileVersion (HttpOutcome.transportError "x") = none
    ∧ getSealFileVersion (HttpOutcome.response 500 entEmpty) = none
    ∧ getSealFileVersion (HttpOutcome.response 200 entEmpty) = none
    ∧ getSealFileVersion (HttpOutcome.response 200 entNullV) = none
    ∧ getSealFileVersion (HttpOutcome.response 200 entStrV) = none
    ∧ (processFile envW6 "ft" 5 9 "cs" "f").2 = some { id := "fid", version := none } :=
  ⟨claim6_version_fetch_nonfatal.1 "x",
   claim6_version_fetch_nonfatal.2.1 500 entEmpty (by decide),
   claim6_version_fetch_nonfatal.2.2.1 200 entEmpty rfl,
   claim6_version_fetch_nonfatal.2.2.2.1 200 entNullV rfl,
   claim6_version_fetch_nonfatal.2.2.2.2.1 200 entStrV "v3" rfl,
   claim6_version_fetch_nonfatal.2.2.2.2.2 envW6 "ft" 5 9 "cs" "f" "fid" rfl rfl rfl⟩

/-- Claim C7: archiveEntities never raises (it is total), produces one
outcome per reference computed independently by a map, classifies each
reference as skipped, success, or failed, the requests it sends do not
depend on the responses, the run result and trace are unchanged under any
change of the archive oracle, and a run that collected references always
proceeds to the field patch after the archive requests. -/
theorem claim7_archive_best_effort :
    (∀ (resp : String → HttpOutcome Unit) (refs : List SealFileReference),
      ((archiveEntities resp (some refs)).2).length = refs.length)
    ∧ (∀ (resp : String → HttpOutcome Unit) (refs : List SealFileReference),
      (archiveEntities resp (some refs)).1 = archiveCalls (some refs))
    ∧ (∀ (resp : String → HttpOutcome Unit) (refs : List SealFileReference),
      (archiveEntities resp (some refs)).2 = refs.map (archiveOneOutcome resp))
    ∧ (∀ (resp : String → HttpOutcome Unit) (r : SealFileReference), r.id = "" →
        archiveOneOutcome resp r = { id := "invalid", status := ArchiveStatus.skipped })
    ∧ (∀ (resp : String → HttpOutcome Unit) (r : SealFileReference), r.id ≠ "" →
        resp r.id = HttpOutcome.response 200 () →
        archiveOneOutcome resp r = { id := r.id, status := ArchiveStatus.success })
    ∧ (∀ (resp : String → HttpOutcome Unit) (r : SealFileReference) (st : Nat) (b : Unit),
        r.id ≠ "" → st ≠ 200 → resp r.id = HttpOutcome.response st b →
        archiveOneOutcome resp r = { id := r.id, status := ArchiveStatus.failed s!"Status {st}" })
    ∧ (∀ (resp : String → HttpOutcome Unit) (r : SealFileReference) (m : String),
        r.id ≠ "" → resp r.id = HttpOutcome.transportError m →
        archiveOneOutcome resp r = { id := r.id, status := ArchiveStatus.failed m })
    ∧ (∀ (env : Env) (g : String → HttpOutcome Unit) (inputs : UploadArtifactsInputs)
        (pc : Option PullRequestContext),
        runUploadArtifacts { env with archiveResp := g } inputs pc
          = runUploadArtifacts env inputs pc)
    ∧ (∀ (env : Env) (inputs : UploadArtifactsInputs) (pr : PullRequestContext)
        (e : SealEntityLite) (cs : String) (t : List ApiCall)
        (refs : List SealFileReference) (fails : Nat),
        splitPatterns inputs.artifactPatterns ≠ [] →
        env.foundFiles ≠ [] →
        findSealEntity env.searchOutcome pr.prNumber inputs.sealTemplateId = Except.ok e →
        env.changeSetOutcome = Except.ok cs →
        processFiles env inputs.sealFileTypeTitle pr.prNumber env.timestamp cs env.foundFiles
          = (t, refs, fails) →
        refs ≠ [] →
        (runUploadArtifacts env inputs (some pr)).1 =
          [ApiCall.search (searchTerm pr.prNumber), ApiCall.getChangeSet e.id] ++ t
            ++ archiveCalls (lookupFieldValue e inputs.fieldName)
            ++ [ApiCall.patchField e.id inputs.fieldName refs]) := by
  refine ⟨?_, ?_, ?_, ?_, ?_, ?_, ?_, ?_, ?_⟩
  · intro resp refs
    simp only [archiveEntities]
    split
    · rename_i h; simp [List.length_eq_zero.mp h]
    · simp
  · intro resp refs
    simp only [archiveEntities, archiveCalls]
    split
    · rename_i h; simp [h]
    · rfl
  · intro resp refs
    simp only [archiveEntities]
    split
    · rename_i h; simp [List.length_eq_zero.mp h]
    · rfl
  · intro resp r h; simp [archiveOneOutcome, h]
  · intro resp r h hr; simp [archiveOneOutcome, h, hr]
  · intro resp r st b h hst hr; simp [archiveOneOutcome, h, hr, hst]
  · intro resp r m h hr; simp [archiveOneOutcome, h, hr]
  · intro env g inputs pc
    cases pc with
    | none => rfl
    | some pr =>
      simp only [runUploadArtifacts, processFiles_archive_frame]
  · intro env inputs pr e cs t refs fails h1 h2 h3 h4 h5 h6
    rw [runUpload_link_shape env inputs pr e cs t refs fails h1 h2 h3 h4 h5 h6]

/-- Witness for claim C7 at concrete references, a concrete oracle, and the
concrete two-file run. -/
theorem claim7_witness :
    ((archiveEntities respW (some [refA, refBad])).2).length = 2
    ∧ archiveOneOutcome respW refBad = { id := "invalid", status := ArchiveStatus.skipped }
    ∧ archiveOneOutcome respW refA = { id := "a1", status := ArchiveStatus.success }
    ∧ (runUploadArtifacts envW2 inputsW (some prW)).1 =
        [ApiCall.search (searchTerm prW.prNumber), ApiCall.getChangeSet entW.id] ++ tW
          ++ archiveCalls (lookupFieldValue entW inputsW.fieldName)
          ++ [ApiCall.patchField entW.id inputsW.fieldName [refB, refC]] :=
  ⟨claim7_archive_best_effort.1 respW [refA, refBad],
   claim7_archive_best_effort.2.2.2.1 respW refBad rfl,
   claim7_archive_best_effort.2.2.2.2.1 respW refA (by decide) rfl,
   claim7_archive_best_effort.2.2.2.2.2.2.2.2 envW2 inputsW prW entW "cs1" tW [refB, refC] 0
     (by decide) (by decide) (by decide) rfl (by decide) (by decide)⟩

/-- Claim C8: with no pull-request context both action runs return
successfully with an empty trace, before any network call. -/
theorem claim8_no_pr_context_noop :
    (∀ (env : Env) (inputs : UploadArtifactsInputs),
      runUploadArtifacts env inputs none = ([], RunResult.success))
    ∧ (∀ (env : SnapshotEnv) (inputs : CodebaseSnapshotInputs),
      runCodebaseSnapshot env inputs none = ([], RunResult.success)) :=
  ⟨fun _ _ => rfl, fun _ _ => rfl⟩

/-- Counterexample for claim C9: with two matching entities the resolver
raises the fixed ambiguous-match message, and that message does not contain
either conflicting entity id. -/
theorem claim9_counterexample :
    findSealEntity (Except.ok [entZ1, entZ2]) 7 "tmpl"
      = Except.error (multiMatchMsg (searchTerm 7) "tmpl")
    ∧ containsSub (multiMatchMsg (searchTerm 7) "tmpl") "zzz1" = false
    ∧ containsSub (multiMatchMsg (searchTerm 7) "tmpl") "zzz2" = false := by decide

/-- Claim C9 as amended: when two or more entities match, the error the
resolver raises carries the fixed ambiguous-match message naming the search
term and the template id; the conflicting ids appear only in a log line
emitted before the throw, not in the raised message. -/
theorem claim9_ambiguous_fixed_message (results : List SealEntityLite) (pr : Nat)
    (tid : String) (h : tid ≠ "")
    (h2 : 2 ≤ (results.filter (matchesTemplate tid)).length) :
    findSealEntity (Except.ok results) pr tid
      = Except.error (multiMatchMsg (searchTerm pr) tid) := by
  rcases hm : results.filter (matchesTemplate tid) with _ | ⟨a, _ | ⟨b, t⟩⟩
  · rw [hm] at h2; simp at h2
  · rw [hm] at h2; simp at h2
  · simp [findSealEntity, if_neg h, hm]

/-- Witness for the amended claim C9 at two concrete matching entities. -/
theorem claim9_witness :
    findSealEntity (Except.ok [entZ1, entZ2]) 7 "tmpl"
      = Except.error (multiMatchMsg (searchTerm 7) "tmpl") :=
  claim9_ambiguous_fixed_message [entZ1, entZ2] 7 "tmpl" (by decide) (by decide)

/-- Claim C10: linkFilesToEntityField called with an empty reference list
returns successfully without sending a PATCH, and every PATCH it ever sends
carries a nonempty value list, so the field is never overwritten with an
empty list. -/
theorem claim10_empty_refs_no_patch :
    (∀ (po : Except String Unit) (eid fn : String),
      linkFilesToEntityField po eid fn [] = ([], Except.ok ()))
    ∧ (∀ (po : Except String Unit) (eid fn : String) (refs : List SealFileReference)
        (eid2 fn2 : String) (v : List SealFileReference),
        ApiCall.patchField eid2 fn2 v ∈ (linkFilesToEntityField po eid fn refs).1 →
        v ≠ ([] : List SealFileReference)) := by
  constructor
  · intro po eid fn; rfl
  · intro po eid fn refs eid2 fn2 v hv
    unfold linkFilesToEntityField at hv
    split at hv
    · simp at hv
    · rename_i hlen
      simp at hv
      obtain ⟨-, -, rfl⟩ := hv
      intro hnil
      rw [hnil] at hlen
      simp at hlen

/-- Witness for claim C10: the empty call is a silent no-op, and the PATCH
sent for a singleton list carries that nonempty list. -/
theorem claim10_witness :
    linkFilesToEntityField (Except.ok ()) "e1" "F" [] = ([], Except.ok ())
    ∧ ([refB] : List SealFileReference) ≠ [] :=
  ⟨claim10_empty_refs_no_patch.1 (Except.ok ()) "e1" "F",
   claim10_empty_refs_no_patch.2 (Except.ok ()) "e1" "F" [refB] "e1" "F" [refB] (by decide)⟩

end SealActions
